import Mathlib

/-!
Shallow embedding of the `schulich_data_science` repository: a survey-cleaning
notebook (`src/term1/MMAI A1.ipynb`), a movie-recommendation notebook
(`src/unnamed/part_000`) and a regularized-regression notebook
(`src/term2/Predictive_Modeling/Regularization Methods.ipynb`), together with
theorems checking the repository's specification against this embedding.
-/

namespace SchulichDS

/-- A pandas cell value as the notebook code observes it: a string category,
the float NaN pandas substitutes for a missing value, or a number. -/
inductive Cell where
  | str (s : String)
  | nan
  | num (n : Int)
deriving DecidableEq

/-- A survey response row as `df.apply(..., axis=1)` passes it to
`calculate_political_leaning`: an assignment of a cell value to every column
name (the Pew survey has on the order of 200 columns; the embedding keeps the
column space open). -/
def SurveyRow : Type := String → Cell

/-- The `mapping` dictionary inside `calculate_political_leaning`
(`src/term1/MMAI A1.ipynb`, cell 3), in its source order. -/
def mapping : List (String × Int) :=
  [("Conservative Rep/Lean", -2),
   ("Moderate/Liberal Rep/Lean", -1),
   ("Moderate/Conservative Dem/Lean", 1),
   ("Liberal Dem/Lean", 2),
   ("Refused either F_IDEO or F_PARTYSUM_FINAL", 0),
   ("DK/Refused/No lean", 0)]

/-- Python `mapping.get(key, default)` on a string-keyed dict: the first
matching key wins; a key that is not a string (NaN, a number) is equal to no
string key, so the default is returned. -/
def dictGet (m : List (String × Int)) (k : Cell) (d : Int) : Int :=
  match k with
  | Cell.str s => lookupStr m s d
  | Cell.nan => d
  | Cell.num _ => d
where
  /-- association-list lookup with a default, mirroring dict lookup. -/
  lookupStr : List (String × Int) → String → Int → Int
    | [], _, d => d
    | (k, v) :: rest, s, d => if s = k then v else lookupStr rest s d

/-- `calculate_political_leaning` (`src/term1/MMAI A1.ipynb`, cell 3): reads
the single column `F_PARTYSUMIDEO_FINAL` of the row and applies
`mapping.get(leaning, 0)`. -/
def calculate_political_leaning (row : SurveyRow) : Int :=
  dictGet mapping (row "F_PARTYSUMIDEO_FINAL") 0

/-- The lookup table exactly as the specification words it (claim C1): the
four partisan categories map to -2, -1, 1, 2, the two refused/no-lean
categories map to 0, and any value not in the table yields 0. -/
def specLeaningTable (c : Cell) : Int :=
  if c = Cell.str "Conservative Rep/Lean" then -2
  else if c = Cell.str "Moderate/Liberal Rep/Lean" then -1
  else if c = Cell.str "Moderate/Conservative Dem/Lean" then 1
  else if c = Cell.str "Liberal Dem/Lean" then 2
  else 0

/-- The four categories that `calculate_political_leaning` maps to a non-zero
index. -/
def isNonZeroCategory (c : Cell) : Prop :=
  c = Cell.str "Conservative Rep/Lean" ∨
  c = Cell.str "Moderate/Liberal Rep/Lean" ∨
  c = Cell.str "Moderate/Conservative Dem/Lean" ∨
  c = Cell.str "Liberal Dem/Lean"

instance (c : Cell) : Decidable (isNonZeroCategory c) := by
  unfold isNonZeroCategory; infer_instance

/-- Column `f` influences the leaning computation: two rows that differ only
at `f` can produce different indices. -/
def influences (f : String) : Prop :=
  ∃ r1 r2 : SurveyRow, (∀ g, g ≠ f → r1 g = r2 g) ∧
    calculate_political_leaning r1 ≠ calculate_political_leaning r2

/-- The computation reads only `F_PARTYSUMIDEO_FINAL`. -/
theorem leaning_agrees (r1 r2 : SurveyRow)
    (h : r1 "F_PARTYSUMIDEO_FINAL" = r2 "F_PARTYSUMIDEO_FINAL") :
    calculate_political_leaning r1 = calculate_political_leaning r2 := by
  unfold calculate_political_leaning
  rw [h]

/-- Only `F_PARTYSUMIDEO_FINAL` can influence the leaning computation. -/
theorem influences_eq (f : String) (hf : influences f) :
    f = "F_PARTYSUMIDEO_FINAL" := by
  by_contra hne
  obtain ⟨r1, r2, hagree, hdiff⟩ := hf
  exact hdiff (leaning_agrees r1 r2 (hagree "F_PARTYSUMIDEO_FINAL" (fun h => hne h.symm)))

/-- C1: for every survey response row, `political_leaning_index` equals a
single lookup-table application over the one column `F_PARTYSUMIDEO_FINAL`,
with the table mapping the four partisan categories to -2, -1, 1, 2, the two
refused/no-lean categories to 0, and any value outside the table to 0. -/
theorem C1_leaning_is_single_lookup (row : SurveyRow) :
    calculate_political_leaning row = specLeaningTable (row "F_PARTYSUMIDEO_FINAL") := by
  unfold calculate_political_leaning specLeaningTable dictGet mapping
  cases h : row "F_PARTYSUMIDEO_FINAL" with
  | str s =>
    simp only [dictGet.lookupStr, Cell.str.injEq]
    split_ifs <;> simp_all
  | nan => simp
  | num n => simp

/-- C3 counterexample: the claim that the index is computed from four survey
fields is false; no four distinct columns each influence the result, because
the computation reads only `F_PARTYSUMIDEO_FINAL`. -/
theorem C3_counterexample :
    ¬ ∃ f1 f2 f3 f4 : String,
        f1 ≠ f2 ∧ f1 ≠ f3 ∧ f1 ≠ f4 ∧ f2 ≠ f3 ∧ f2 ≠ f4 ∧ f3 ≠ f4 ∧
        influences f1 ∧ influences f2 ∧ influences f3 ∧ influences f4 := by
  rintro ⟨f1, f2, f3, f4, h12, -, -, -, -, -, i1, i2, -, -⟩
  exact h12 ((influences_eq f1 i1).trans (influences_eq f2 i2).symm)

/-- C3 amended: the derived index `political_leaning_index` is computed from
the single survey field `F_PARTYSUMIDEO_FINAL`: rows agreeing there agree on
the index, and that field does influence the index. -/
theorem C3_leaning_from_one_field :
    (∀ r1 r2 : SurveyRow,
        r1 "F_PARTYSUMIDEO_FINAL" = r2 "F_PARTYSUMIDEO_FINAL" →
        calculate_political_leaning r1 = calculate_political_leaning r2) ∧
    influences "F_PARTYSUMIDEO_FINAL" := by
  refine ⟨leaning_agrees, ?_⟩
  refine ⟨fun g => if g = "F_PARTYSUMIDEO_FINAL" then Cell.str "Liberal Dem/Lean" else Cell.nan,
          fun _ => Cell.nan, fun g hg => ?_, ?_⟩
  · simp [hg]
  · decide

/-- C3 amended, witness: the agreement half applied to two concrete rows that
share the value of `F_PARTYSUMIDEO_FINAL`. -/
theorem C3_leaning_from_one_field_witness :
    calculate_political_leaning (fun _ => Cell.str "Liberal Dem/Lean") =
      calculate_political_leaning
        (fun g => if g = "userId" then Cell.num 7 else Cell.str "Liberal Dem/Lean") :=
  C3_leaning_from_one_field.1
    (fun _ => Cell.str "Liberal Dem/Lean")
    (fun g => if g = "userId" then Cell.num 7 else Cell.str "Liberal Dem/Lean")
    (by decide)

/-- C8: `calculate_political_leaning` is total and in range: on every row,
also one whose `F_PARTYSUMIDEO_FINAL` is NaN or an unseen category, it
returns a value in {-2, -1, 0, 1, 2}, and it returns 0 exactly when the
field's value is not one of the four non-zero mapped categories. -/
theorem C8_leaning_total_in_range (row : SurveyRow) :
    (calculate_political_leaning row = -2 ∨ calculate_political_leaning row = -1 ∨
     calculate_political_leaning row = 0 ∨ calculate_political_leaning row = 1 ∨
     calculate_political_leaning row = 2) ∧
    (calculate_political_leaning row = 0 ↔
      ¬ isNonZeroCategory (row "F_PARTYSUMIDEO_FINAL")) := by
  rw [C1_leaning_is_single_lookup row]
  unfold specLeaningTable isNonZeroCategory
  split_ifs with h1 h2 h3 h4 <;> simp_all

/-- C10: noninterference: any two survey rows agreeing on the single field
`F_PARTYSUMIDEO_FINAL` get the same leaning index, whatever their other
fields; in particular neither `F_PARTYLN_FINAL` nor `F_PARTYSUM_FINAL`
influences the index, despite the code comment naming them as inputs. -/
theorem C10_leaning_noninterference :
    (∀ r1 r2 : SurveyRow,
        r1 "F_PARTYSUMIDEO_FINAL" = r2 "F_PARTYSUMIDEO_FINAL" →
        calculate_political_leaning r1 = calculate_political_leaning r2) ∧
    ¬ influences "F_PARTYLN_FINAL" ∧ ¬ influences "F_PARTYSUM_FINAL" := by
  refine ⟨leaning_agrees, fun h => ?_, fun h => ?_⟩ <;> simpa using influences_eq _ h

/-- C10 witness: the agreement half applied to two concrete rows sharing
`F_PARTYSUMIDEO_FINAL` but differing on `F_PARTYLN_FINAL`. -/
theorem C10_leaning_noninterference_witness :
    calculate_political_leaning
        (fun g => if g = "F_PARTYLN_FINAL" then Cell.str "Republican" else Cell.str "DK/Refused/No lean") =
      calculate_political_leaning (fun _ => Cell.str "DK/Refused/No lean") :=
  C10_leaning_noninterference.1
    (fun g => if g = "F_PARTYLN_FINAL" then Cell.str "Republican" else Cell.str "DK/Refused/No lean")
    (fun _ => Cell.str "DK/Refused/No lean")
    (by decide)

/-! ### Library-call hyperparameters (recommendation and regression notebooks)

The recommendation notebook (`src/unnamed/part_000`) and the regression
notebook (`Regularization Methods.ipynb`) each invoke third-party model
routines as single calls.  The records below embed, per call site, the
effective hyperparameters the call runs with, next to the documented library
defaults (surprise 1.1.4 and scikit-learn). -/

/-- The similarity options of surprise's `KNNBasic` relevant to the notebook:
the similarity measure name and user- vs item-based similarity. -/
structure SimOptions where
  simName : String
  user_based : Bool
deriving DecidableEq

/-- Library default of surprise `KNNBasic`: `sim_options` defaults to MSD
similarity with `user_based=True`. -/
def knnDefaultSimOptions : SimOptions := ⟨"MSD", true⟩

/-- First `KNNBasic` call (`src/unnamed/part_000`, cell 4):
`sim_options = {name: cosine, user_based: False}`. -/
def knnCall1SimOptions : SimOptions := ⟨"cosine", false⟩

/-- Second `KNNBasic` call (`src/unnamed/part_000`, cell 12):
`sim_options = {user_based: False}`; the similarity name falls back to the
default MSD. -/
def knnCall2SimOptions : SimOptions := ⟨"MSD", false⟩

/-- The hyperparameters of surprise's `SVD`. -/
structure SVDParams where
  n_factors : Nat
  n_epochs : Nat
  lr_all : ℚ
  reg_all : ℚ
deriving DecidableEq

/-- Library defaults of surprise `SVD`: 100 factors, 20 epochs, learning rate
0.005, regularization 0.02. -/
def svdDefaultParams : SVDParams := ⟨100, 20, 5/1000, 2/100⟩

/-- The `SVD()` call (`src/unnamed/part_000`, cell 14) passes no arguments,
so it runs with 100 factors, 20 epochs, learning rate 0.005 and
regularization 0.02. -/
def svdCallParams : SVDParams := ⟨100, 20, 5/1000, 2/100⟩

/-- scikit-learn default `alpha` of `Lasso` (1.0). -/
def lassoDefaultAlpha : ℚ := 1

/-- scikit-learn default `alpha` of `Ridge` (1.0). -/
def ridgeDefaultAlpha : ℚ := 1

/-- `lm.Lasso(alpha=1)` (`Regularization Methods.ipynb`, cell 8). -/
def lassoCall1Alpha : ℚ := 1

/-- `lm.Lasso(alpha=100)` (`Regularization Methods.ipynb`, cell 9). -/
def lassoCall2Alpha : ℚ := 100

/-- `lm.Ridge(alpha=10)` (`Regularization Methods.ipynb`, cell 10). -/
def ridgeCall1Alpha : ℚ := 10

/-- `lm.Ridge(alpha=10000)` (`Regularization Methods.ipynb`, cell 11). -/
def ridgeCall2Alpha : ℚ := 10000

/-- Claim C2 formalized: every k-NN, SVD and Lasso/Ridge call site passes
arguments coinciding with the library defaults. -/
def allModelCallsUseDefaults : Prop :=
  knnCall1SimOptions = knnDefaultSimOptions ∧
  knnCall2SimOptions = knnDefaultSimOptions ∧
  svdCallParams = svdDefaultParams ∧
  lassoCall1Alpha = lassoDefaultAlpha ∧
  lassoCall2Alpha = lassoDefaultAlpha ∧
  ridgeCall1Alpha = ridgeDefaultAlpha ∧
  ridgeCall2Alpha = ridgeDefaultAlpha

/-- C2 counterexample: not every model call uses library defaults; already
the first `KNNBasic` call passes cosine item-based similarity options in
place of the default user-based MSD. -/
theorem C2_counterexample : ¬ allModelCallsUseDefaults := by
  intro h
  exact absurd h.1 (by decide)

/-- C2 amended: the model routines are each invoked as single library calls,
but not all with default parameters: the `SVD()` call and the first Lasso
call (`alpha=1`) coincide with the defaults, while both `KNNBasic` calls pass
non-default similarity options and the second Lasso call and both Ridge
calls pass a non-default `alpha`. -/
theorem C2_model_call_defaults :
    svdCallParams = svdDefaultParams ∧
    lassoCall1Alpha = lassoDefaultAlpha ∧
    knnCall1SimOptions ≠ knnDefaultSimOptions ∧
    knnCall2SimOptions ≠ knnDefaultSimOptions ∧
    lassoCall2Alpha ≠ lassoDefaultAlpha ∧
    ridgeCall1Alpha ≠ ridgeDefaultAlpha ∧
    ridgeCall2Alpha ≠ ridgeDefaultAlpha := by
  refine ⟨rfl, rfl, by decide, by decide, ?_, ?_, ?_⟩ <;>
    simp [lassoCall2Alpha, lassoDefaultAlpha, ridgeCall1Alpha, ridgeDefaultAlpha,
      ridgeCall2Alpha]

/-! ### External interfaces of the notebooks

Every external input or output operation each notebook performs, read off
the notebook sources in execution order. -/

/-- An external I/O action of a notebook. -/
inductive ExtAction where
  | readCsvUrl (url : String)
  | readExcelLocalPath (p : String)
  | writeExcelLocalPath (p : String)
  | pipInstallNetwork (pkg : String)
deriving DecidableEq

/-- External actions of the recommendation notebook (`src/unnamed/part_000`):
a pip network install, then two CSV reads from URLs; it writes no file. -/
def recommenderActions : List ExtAction :=
  [ExtAction.pipInstallNetwork "scikit-surprise",
   ExtAction.readCsvUrl "https://raw.githubusercontent.com/delinai/schulich_ds1/main/Datasets/ratings.csv",
   ExtAction.readCsvUrl "https://raw.githubusercontent.com/delinai/schulich_ds1/main/Datasets/movies.csv"]

/-- External actions of the survey notebook (`src/term1/MMAI A1.ipynb`):
one local Excel read, then two local Excel writes (cells 3 and 4 both save
`Modified_AI-Human-PewData.xlsx`). -/
def surveyActions : List ExtAction :=
  [ExtAction.readExcelLocalPath "AI-Human-PewData.xlsx",
   ExtAction.writeExcelLocalPath "Modified_AI-Human-PewData.xlsx",
   ExtAction.writeExcelLocalPath "Modified_AI-Human-PewData.xlsx"]

/-- External actions of the regression notebook
(`Regularization Methods.ipynb`): none; its design matrix and response are
synthesized in memory with `np.random`. -/
def regularizationActions : List ExtAction := []

/-- The three notebooks of the repository with their external actions. -/
def notebookActions : List (String × List ExtAction) :=
  [("recommender", recommenderActions),
   ("survey", surveyActions),
   ("regularization", regularizationActions)]

/-- Is the action a CSV/Excel read (from a local path or URL)? -/
def isReadAction : ExtAction → Bool
  | ExtAction.readCsvUrl _ => true
  | ExtAction.readExcelLocalPath _ => true
  | _ => false

/-- Is the action a local Excel write? -/
def isWriteExcelAction : ExtAction → Bool
  | ExtAction.writeExcelLocalPath _ => true
  | _ => false

/-- Claim C4's interface contract for one notebook: it performs a CSV/Excel
read and an Excel write, and every external action is one of those two
kinds. -/
def onlyReadWriteInterfaces (acts : List ExtAction) : Prop :=
  (∃ a ∈ acts, isReadAction a = true) ∧
  (∃ a ∈ acts, isWriteExcelAction a = true) ∧
  (∀ a ∈ acts, isReadAction a = true ∨ isWriteExcelAction a = true)

/-- C4 counterexample: not every notebook has only read-CSV/Excel and
write-Excel interfaces; the recommendation notebook performs no Excel write
at all (and its pip install is a further, network interface). -/
theorem C4_counterexample :
    ¬ ∀ nb ∈ notebookActions, onlyReadWriteInterfaces nb.2 := by
  intro h
  have := (h ("recommender", recommenderActions) (by decide)).2.1
  revert this
  decide

/-- C4 amended: only the survey notebook both reads a CSV/Excel file and
writes a modified Excel file back, with no other external interface; the
recommendation notebook reads two CSVs from URLs and performs a pip network
install but writes nothing; the regression notebook performs no external
I/O at all. -/
theorem C4_external_interfaces :
    onlyReadWriteInterfaces surveyActions ∧
    (∃ a ∈ recommenderActions, isReadAction a = true) ∧
    (∀ a ∈ recommenderActions, isWriteExcelAction a = false) ∧
    ExtAction.pipInstallNetwork "scikit-surprise" ∈ recommenderActions ∧
    regularizationActions = [] := by
  refine ⟨⟨?_, ?_, ?_⟩, ?_, ?_, ?_, rfl⟩ <;> decide

/-- Where one notebook's working data comes from. -/
inductive DataOrigin where
  | externalFile
  | synthesizedRandom
deriving DecidableEq

/-- A notebook of the repository, as claim C7 views it: its external
actions, where its working data originates, and whether it calls library
model/data routines and prints or plots results. -/
structure Notebook where
  title : String
  actions : List ExtAction
  origin : DataOrigin
  callsLibraryRoutines : Bool
  printsOrPlots : Bool
deriving DecidableEq

/-- The recommendation notebook: loads two CSVs, cross-validates, fits and
predicts with surprise models, prints RMSE tables and predictions. -/
def recommenderNotebook : Notebook :=
  ⟨"part_000 recommender", recommenderActions, DataOrigin.externalFile, true, true⟩

/-- The survey notebook: loads a local Excel file, applies pandas column
routines, prints heads and the column index. -/
def surveyNotebook : Notebook :=
  ⟨"MMAI A1 survey", surveyActions, DataOrigin.externalFile, true, true⟩

/-- The regression notebook: synthesizes its design matrix and response with
`np.random`, fits OLS/Lasso/Ridge, prints summaries and coefficients. -/
def regularizationNotebook : Notebook :=
  ⟨"Regularization Methods", regularizationActions, DataOrigin.synthesizedRandom, true, true⟩

/-- The three notebooks. -/
def allNotebooks : List Notebook :=
  [recommenderNotebook, surveyNotebook, regularizationNotebook]

/-- C7 counterexample: not every notebook's input data originates from
loading an external dataset; the regression notebook performs no read action
and synthesizes its data with random draws. -/
theorem C7_counterexample :
    ¬ ∀ nb ∈ allNotebooks,
        nb.origin = DataOrigin.externalFile ∧ ∃ a ∈ nb.actions, isReadAction a = true := by
  intro h
  have := (h regularizationNotebook (by decide)).1
  revert this
  decide

/-- C7 amended: every notebook calls library functions and prints or plots
results, and the recommendation and survey notebooks load their datasets
from external CSV/Excel sources, but the regression notebook synthesizes its
input data in memory with random draws rather than loading an external
dataset. -/
theorem C7_notebook_shape :
    (∀ nb ∈ allNotebooks, nb.callsLibraryRoutines = true ∧ nb.printsOrPlots = true) ∧
    recommenderNotebook.origin = DataOrigin.externalFile ∧
    surveyNotebook.origin = DataOrigin.externalFile ∧
    regularizationNotebook.origin = DataOrigin.synthesizedRandom ∧
    regularizationNotebook.actions = [] := by
  refine ⟨?_, rfl, rfl, rfl, rfl⟩
  decide

/-! ### Merging ratings with movie titles (`src/unnamed/part_000`, cells 3 and 8)

`pd.merge(ratings_df, movies_df, on='movieId')` with two key-disjoint column
sets is the inner equi-join on `movieId`: one output row per matching pair of
input rows, carrying the rating row's columns and the movie row's remaining
columns. -/

/-- A row of `ratings.csv`: `userId, movieId, rating, timestamp`. The rating
is a half-star value, carried as an exact rational. -/
structure RatingRow where
  userId : Int
  movieId : Int
  rating : ℚ
  timestamp : Int
deriving DecidableEq

/-- A row of `movies.csv`: `movieId, title, genres`. -/
structure MovieRow where
  movieId : Int
  title : String
  genres : String
deriving DecidableEq

/-- A row of the merged table: the rating row's columns followed by the
movie row's non-key columns. -/
structure MergedRow where
  userId : Int
  movieId : Int
  rating : ℚ
  timestamp : Int
  title : String
  genres : String
deriving DecidableEq

/-- The merged row an inner-join match of rating row `r` and movie row `m`
produces: `r`'s fields unchanged, extended with `m`'s title and genres. -/
def mergedOf (r : RatingRow) (m : MovieRow) : MergedRow :=
  ⟨r.userId, r.movieId, r.rating, r.timestamp, m.title, m.genres⟩

/-- `pd.merge(ratings_df, movies_df, on='movieId')`: for each rating row in
order, one output row per movie row whose `movieId` matches. -/
def mergeOnMovieId (rs : List RatingRow) (ms : List MovieRow) : List MergedRow :=
  rs.flatMap fun r =>
    (ms.filter fun m => m.movieId == r.movieId).map fun m => mergedOf r m

/-- C5: the merge is the inner join on `movieId`: a row is in the merged
table exactly when it is some rating row extended, with `userId`, `movieId`,
`rating` (and timestamp) unaltered, by the title and genres of a movie row
with the same `movieId`; and no merged row carries the `movieId` of a rating
whose `movieId` has no entry in the movies table. -/
theorem C5_merge_is_inner_join (rs : List RatingRow) (ms : List MovieRow) :
    (∀ mr, mr ∈ mergeOnMovieId rs ms ↔
        ∃ r ∈ rs, ∃ m ∈ ms, m.movieId = r.movieId ∧ mr = mergedOf r m) ∧
    (∀ r ∈ rs, (∀ m ∈ ms, m.movieId ≠ r.movieId) →
        ∀ mr ∈ mergeOnMovieId rs ms, mr.movieId ≠ r.movieId) := by
  have hmem : ∀ mr, mr ∈ mergeOnMovieId rs ms ↔
      ∃ r ∈ rs, ∃ m ∈ ms, m.movieId = r.movieId ∧ mr = mergedOf r m := by
    intro mr
    unfold mergeOnMovieId
    simp only [List.mem_flatMap, List.mem_map, List.mem_filter, beq_iff_eq]
    constructor
    · rintro ⟨r, hr, m, ⟨hm, hkey⟩, rfl⟩
      exact ⟨r, hr, m, hm, hkey, rfl⟩
    · rintro ⟨r, hr, m, hm, hkey, rfl⟩
      exact ⟨r, hr, m, ⟨hm, hkey⟩, rfl⟩
  refine ⟨hmem, fun r hr hnone mr hmr => ?_⟩
  obtain ⟨r', -, m, hm, hkey, rfl⟩ := (hmem mr).mp hmr
  intro hbad
  exact hnone m hm (by simpa [mergedOf, ← hkey] using hbad)

/-- C5 witness: the characterization applied to concrete one-row tables: the
single matching pair appears in the merged table. -/
theorem C5_merge_is_inner_join_witness :
    mergedOf ⟨1, 10, 7/2, 0⟩ ⟨10, "GoldenEye (1995)", "Action"⟩ ∈
      mergeOnMovieId [⟨1, 10, 7/2, 0⟩] [⟨10, "GoldenEye (1995)", "Action"⟩] :=
  ((C5_merge_is_inner_join [⟨1, 10, 7/2, 0⟩] [⟨10, "GoldenEye (1995)", "Action"⟩]).1
      (mergedOf ⟨1, 10, 7/2, 0⟩ ⟨10, "GoldenEye (1995)", "Action"⟩)).mpr
    ⟨⟨1, 10, 7/2, 0⟩, List.mem_singleton.mpr rfl,
     ⟨10, "GoldenEye (1995)", "Action"⟩, List.mem_singleton.mpr rfl, rfl, rfl⟩

/-! ### Dropping the column block SMALG1_W99 .. DCARS13_d_W99
(`src/term1/MMAI A1.ipynb`, cell 4)

The dataframe is embedded column-oriented: a list of columns in order, each a
name with its list of cell values.  The source computes
`start_index = df.columns.get_loc(start_col)`,
`end_index = df.columns.get_loc(end_col) + 1` and then
`df.drop(df.columns[start_index:end_index], axis=1)`, which drops BY LABEL:
every column whose name appears in the slice of labels is removed. -/

/-- `df.columns.get_loc(name)`: the position of the column label `name` when
it occurs exactly once.  pandas raises a `KeyError` for an absent label and
returns a non-integer (mask or slice) for a duplicated one, which the `+ 1`
in the source then rejects with a `TypeError`; both failure modes are
embedded as `none`. -/
def get_loc (cols : List String) (name : String) : Option Nat :=
  if cols.count name = 1 then some (cols.indexOf name) else none

/-- The column-range drop of cell 4:
`df.drop(df.columns[start_index:end_index], axis=1)` with
`start_index = get_loc startCol` and `end_index = get_loc endCol + 1`; a
column survives exactly when its label is not among the sliced labels. -/
def dropColRange (df : List (String × List Cell)) (startCol endCol : String) :
    Option (List (String × List Cell)) :=
  match get_loc (df.map Prod.fst) startCol, get_loc (df.map Prod.fst) endCol with
  | some i, some j =>
      some (df.filter fun c =>
        ! (((df.map Prod.fst).drop i).take (j + 1 - i)).contains c.1)
  | _, _ => none

/-- A dataframe in which a label inside the block also occurs after it. -/
def dupColumnsDF : List (String × List Cell) :=
  [("SMALG1_W99", []), ("A", []), ("DCARS13_d_W99", []), ("A", [])]

/-- C9 counterexample: on `dupColumnsDF` the claim's precondition holds
(`SMALG1_W99` at position 0, `DCARS13_d_W99` at position 2), the columns
outside the block are exactly `[("A", [])]`, yet the drop removes that
outside column too (it shares its label with a column inside the block), so
not every column outside the block is retained. -/
theorem C9_counterexample :
    get_loc (dupColumnsDF.map Prod.fst) "SMALG1_W99" = some 0 ∧
    get_loc (dupColumnsDF.map Prod.fst) "DCARS13_d_W99" = some 2 ∧
    dupColumnsDF.take 0 ++ dupColumnsDF.drop 3 = [("A", [])] ∧
    dropColRange dupColumnsDF "SMALG1_W99" "DCARS13_d_W99" = some [] := by
  decide

/-- C9 amended: when `SMALG1_W99` and `DCARS13_d_W99` each occur exactly
once, at positions `i ≤ j`, and no column outside the block shares its label
with a column of the block, the drop removes exactly the contiguous block of
columns from position `i` through `j` inclusive and keeps every other column,
with its values, relative order, and hence the number of rows, unchanged. -/
theorem C9_drop_column_range (df : List (String × List Cell)) (s e : String)
    (i j : Nat)
    (h1 : get_loc (df.map Prod.fst) s = some i)
    (h2 : get_loc (df.map Prod.fst) e = some j)
    (hij : i ≤ j)
    (hout : ∀ c ∈ df.take i ++ df.drop (j + 1),
        (((df.map Prod.fst).drop i).take (j + 1 - i)).contains c.1 = false) :
    dropColRange df s e = some (df.take i ++ df.drop (j + 1)) := by
  unfold dropColRange
  rw [h1, h2]
  simp only [Option.some.injEq]
  set L : List String := ((df.map Prod.fst).drop i).take (j + 1 - i) with hL
  have hdf : df = df.take i ++ ((df.drop i).take (j + 1 - i) ++ df.drop (j + 1)) := by
    conv_lhs => rw [← List.take_append_drop i df]
    congr 1
    conv_lhs => rw [← List.take_append_drop (j + 1 - i) (df.drop i)]
    congr 1
    rw [List.drop_drop]
    congr 1
    omega
  have htake : ∀ c ∈ df.take i, (! L.contains c.1) = true := by
    intro c hc
    simpa using hout c (List.mem_append_left _ hc)
  have hdrop : ∀ c ∈ df.drop (j + 1), (! L.contains c.1) = true := by
    intro c hc
    simpa using hout c (List.mem_append_right _ hc)
  have hmid : ∀ c ∈ (df.drop i).take (j + 1 - i), ¬ (! L.contains c.1) = true := by
    intro c hc
    have hcL : c.1 ∈ L := by
      rw [hL, ← List.map_drop, ← List.map_take]
      exact List.mem_map_of_mem Prod.fst hc
    simpa using hcL
  calc df.filter (fun c => ! L.contains c.1)
      = (df.take i ++ ((df.drop i).take (j + 1 - i) ++ df.drop (j + 1))).filter
          (fun c => ! L.contains c.1) := by rw [← hdf]
    _ = df.take i ++ df.drop (j + 1) := by
        rw [List.filter_append, List.filter_append,
          List.filter_eq_self.mpr htake, List.filter_eq_self.mpr hdrop,
          List.filter_eq_nil_iff.mpr hmid]
        simp

/-- A small survey dataframe with the block between the two marker columns. -/
def surveyLikeDF : List (String × List Cell) :=
  [("QKEY", [Cell.num 1]),
   ("SMALG1_W99", [Cell.nan]),
   ("SMALG2_W99", [Cell.str "Yes"]),
   ("DCARS13_d_W99", [Cell.nan]),
   ("F_PARTYSUMIDEO_FINAL", [Cell.str "Liberal Dem/Lean"])]

/-- C9 amended, witness: on `surveyLikeDF` the drop removes exactly columns
1 through 3 and keeps `QKEY` and `F_PARTYSUMIDEO_FINAL`. -/
theorem C9_drop_column_range_witness :
    dropColRange surveyLikeDF "SMALG1_W99" "DCARS13_d_W99" =
      some (surveyLikeDF.take 1 ++ surveyLikeDF.drop 4) :=
  C9_drop_column_range surveyLikeDF "SMALG1_W99" "DCARS13_d_W99" 1 3
    (by decide) (by decide) (by decide) (by decide)

/-! ### Error propagation through the notebooks

Each notebook is a linear sequence of operations.  A step records whether
the source wraps it in an exception handler (`try/except`); no cell of any
notebook does.  The execution semantics runs the steps in order against an
environment that says which operations raise: an unhandled raise aborts the
run with that error, a handled one would continue. -/

/-- One notebook operation: its name and whether the source code wraps it in
an exception handler. -/
structure NBStep where
  opName : String
  handled : Bool
deriving DecidableEq

/-- Run the steps in order: `fails` tells which operation raises which
error; an error at an unhandled step becomes the notebook's result, an error
at a handled step would be recovered from. -/
def runNotebook (steps : List NBStep) (fails : String → Option String) :
    Except String Unit :=
  match steps with
  | [] => Except.ok ()
  | c :: rest =>
    match fails c.opName with
    | some e => if c.handled then runNotebook rest fails else Except.error e
    | none => runNotebook rest fails

/-- Steps of the survey notebook (`src/term1/MMAI A1.ipynb`), in cell order;
no cell contains a `try/except`. -/
def surveySteps : List NBStep :=
  [⟨"pd.read_excel", false⟩,
   ⟨"print df.head", false⟩,
   ⟨"apply calculate_political_leaning", false⟩,
   ⟨"df.to_excel first save", false⟩,
   ⟨"drop column block", false⟩,
   ⟨"df.to_excel second save", false⟩]

/-- Steps of the recommendation notebook (`src/unnamed/part_000`), in cell
order; no cell contains a `try/except`. -/
def recommenderSteps : List NBStep :=
  [⟨"pip install scikit-surprise", false⟩,
   ⟨"pd.read_csv ratings", false⟩,
   ⟨"pd.read_csv movies", false⟩,
   ⟨"pd.merge and load_from_df", false⟩,
   ⟨"KNNBasic cross_validate", false⟩,
   ⟨"fit full trainset and print sim", false⟩,
   ⟨"predict uid 1 iid 10", false⟩,
   ⟨"train_test_split", false⟩,
   ⟨"KNNBasic fit test rmse", false⟩,
   ⟨"SVD cross_validate", false⟩,
   ⟨"svd fit", false⟩,
   ⟨"apply svd.predict to all rows", false⟩]

/-- Steps of the regression notebook (`Regularization Methods.ipynb`), in
cell order; no cell contains a `try/except`. -/
def regularizationSteps : List NBStep :=
  [⟨"np.random draws", false⟩,
   ⟨"build response y", false⟩,
   ⟨"OLS fit and summary", false⟩,
   ⟨"extended OLS fit and summary", false⟩,
   ⟨"Lasso alpha 1 fit", false⟩,
   ⟨"Lasso alpha 100 fit", false⟩,
   ⟨"Ridge alpha 10 fit", false⟩,
   ⟨"Ridge alpha 10000 fit", false⟩]

/-- The three notebooks' step lists. -/
def allNotebookSteps : List (List NBStep) :=
  [surveySteps, recommenderSteps, regularizationSteps]

/-- In a run of unhandled steps, the first error raised is the result. -/
theorem runNotebook_first_error (pre : List NBStep) (c : NBStep)
    (post : List NBStep) (fails : String → Option String) (e : String)
    (hall : c.handled = false)
    (hpre : ∀ s ∈ pre, fails s.opName = none)
    (hc : fails c.opName = some e) :
    runNotebook (pre ++ c :: post) fails = Except.error e := by
  induction pre with
  | nil => simp [runNotebook, hc, hall]
  | cons s rest ih =>
    have hs : fails s.opName = none := hpre s (by simp)
    simp only [List.cons_append, runNotebook, hs]
    exact ih fun s hs => hpre s (by simp [hs])

/-- C6: no step of any notebook is wrapped in a handler, and whenever an
operation of a notebook raises while every operation before it succeeds,
the notebook's result is exactly that first error, unchanged: nothing
catches, retries, transforms, or recovers from it. -/
theorem C6_errors_propagate (nb : List NBStep) (hnb : nb ∈ allNotebookSteps)
    (pre : List NBStep) (c : NBStep) (post : List NBStep)
    (fails : String → Option String) (e : String)
    (hsplit : nb = pre ++ c :: post)
    (hpre : ∀ s ∈ pre, fails s.opName = none)
    (hc : fails c.opName = some e) :
    (∀ s ∈ nb, s.handled = false) ∧
    runNotebook nb fails = Except.error e := by
  have hall : ∀ s ∈ nb, s.handled = false := by
    fin_cases hnb <;> decide
  refine ⟨hall, ?_⟩
  rw [hsplit]
  exact runNotebook_first_error pre c post fails e
    (hall c (by simp [hsplit])) hpre hc

/-- C6 witness: a missing input file makes `pd.read_excel` raise first, and
the survey notebook's result is exactly that error. -/
theorem C6_errors_propagate_witness :
    runNotebook surveySteps
        (fun n => if n = "pd.read_excel" then some "FileNotFoundError" else none) =
      Except.error "FileNotFoundError" :=
  (C6_errors_propagate surveySteps (by simp [allNotebookSteps])
    [] ⟨"pd.read_excel", false⟩
    [⟨"print df.head", false⟩,
     ⟨"apply calculate_political_leaning", false⟩,
     ⟨"df.to_excel first save", false⟩,
     ⟨"drop column block", false⟩,
     ⟨"df.to_excel second save", false⟩]
    (fun n => if n = "pd.read_excel" then some "FileNotFoundError" else none)
    "FileNotFoundError" rfl (by simp) (by simp)).2

end SchulichDS
